import Mathlib

/-!
Verification development for the Nexora dataset-visualization frontend.

The definitions below are shallow embeddings of the TypeScript source:

* `Dataset`, `seededRandom` machinery, and the two `generateNodesScatter`
  grid+jitter layout variants come from the two `ResultsMap` component
  variants (`src/unnamed/part_001` and `src/unnamed/part_002`);
* the spherical planet placement, `determineDatasetType` classifier,
  click handling, UI state handlers, and the GPU-resource lifecycle of the
  `App` component come from `src/frontend/vite.config.ts`;
* the results-page rendering guard comes from `src/unnamed/part_003`;
* the landing-page teardown sequence comes from `src/unnamed/part_000`.

JavaScript floating-point sines, cosines and square roots are modelled
over the real numbers; 32-bit integer arithmetic (`Math.imul`, `>>>`,
`^`, `|`) is modelled exactly on `Nat` with explicit reduction modulo
2 ^ 32.
-/

namespace Nexora

/-- Dataset record as declared in both ResultsMap variants
(`export type Dataset`). -/
structure Dataset where
  id : String
  source_url : String
  display_name : Option String
  description : Option String
  possibilities : Option String
  num_files : Nat
deriving DecidableEq

/-- Placeholder dataset used only as the default value of list lookups. -/
def defaultDataset : Dataset := ⟨"", "", none, none, none, 0⟩

/-! ### The seeded pseudo-random generator of the ResultsMap variants

`seededRandom(seed)` hashes the seed string with FNV-1a and returns a
mulberry32-style generator closure.  All JavaScript bitwise operators
convert their operands to 32-bit integers; signed and unsigned views
agree modulo 2 ^ 32, so the state is tracked as a natural number that is
reduced modulo 2 ^ 32 at every operation, exactly as `>>> 0` does. -/

/-- Reduction modulo 2 ^ 32, the effect of the JavaScript `>>> 0` coercion. -/
def u32 (x : Nat) : Nat := x % 4294967296

/-- FNV-1a hash of the character codes of the seed string
(`h = 2166136261; h ^= c; h = Math.imul(h, 16777619)`). -/
def fnv1a (codes : List Nat) : Nat :=
  codes.foldl (fun h c => u32 ((u32 h ^^^ u32 c) * 16777619)) 2166136261

/-- One output of the mulberry32-style generator for (already incremented)
state `h`: `t = Math.imul(h ^ h >>> 15, 1 | h); t ^= t + Math.imul(t ^ t >>> 7,
61 | t); return ((t ^ t >>> 14) >>> 0)` (the final division by 2 ^ 32 is done
by the callers). -/
def mulberryOut (h : Nat) : Nat :=
  let hu := u32 h
  let t := u32 ((hu ^^^ hu / 32768) * (hu ||| 1))
  let t2 := t ^^^ u32 (t + u32 ((t ^^^ t / 128) * (t ||| 61)))
  t2 ^^^ t2 / 16384

/-- Character codes of the seed string (`charCodeAt`); the ids in play are
ASCII, where UTF-16 code units and code points agree. -/
def seedCodes (s : String) : List Nat := s.toList.map Char.toNat

/-- Value of the `call`-th invocation (0-based) of the closure returned by
`seededRandom(seed)`: before each invocation the state is advanced by
`0x6D2B79F5`, and the 32-bit output is divided by 4294967296. -/
def seededRandomDraw (seed : String) (call : Nat) : ℚ :=
  (mulberryOut (fnv1a (seedCodes seed) + (call + 1) * 0x6D2B79F5) : ℚ) / 4294967296

/-! ### The planar grid+jitter layout

Both ResultsMap variants share the same grid code
(`usableW = viewportWidth * 0.86`, `usableH = viewportHeight * 0.72`,
`cols = Math.ceil(Math.sqrt(n * aspect))`, `rows = Math.ceil(n / cols)`);
they differ only in how the per-node offset is assembled.  `Math.ceil`
yields the mathematical ceiling; the result is nonnegative in every case
the code reaches, so taking `Int.toNat` is faithful. -/

noncomputable def usableW (vw : ℝ) : ℝ := vw * 0.86

noncomputable def usableH (vh : ℝ) : ℝ := vh * 0.72

noncomputable def gridAspect (vw vh : ℝ) : ℝ := usableW vw / usableH vh

noncomputable def cols (n : Nat) (vw vh : ℝ) : Nat :=
  (⌈Real.sqrt ((n : ℝ) * gridAspect vw vh)⌉).toNat

noncomputable def rows (n : Nat) (vw vh : ℝ) : Nat :=
  (⌈(n : ℝ) / (cols n vw vh : ℝ)⌉).toNat

noncomputable def cellW (n : Nat) (vw vh : ℝ) : ℝ := usableW vw / (cols n vw vh : ℝ)

noncomputable def cellH (n : Nat) (vw vh : ℝ) : ℝ := usableH vh / (rows n vw vh : ℝ)

/-- Seed string chosen for a node: `` `${ds.id || ds.source_url || i}` ``
(a falsy string in JavaScript is exactly the empty string). -/
def seedFor (d : Dataset) (i : Nat) : String :=
  if d.id ≠ "" then d.id else if d.source_url ≠ "" then d.source_url else toString i

/-- Per-node jitter of the first ResultsMap variant:
`(rand() - 0.5) * cellW * 0.5` (first draw of the seeded generator). -/
noncomputable def baseJitterX (seed : String) (cw : ℝ) : ℝ :=
  ((seededRandomDraw seed 0 : ℝ) - 0.5) * cw * 0.5

/-- Per-node jitter of the first ResultsMap variant:
`(rand() - 0.5) * cellH * 0.5` (second draw of the seeded generator). -/
noncomputable def baseJitterY (seed : String) (ch : ℝ) : ℝ :=
  ((seededRandomDraw seed 1 : ℝ) - 0.5) * ch * 0.5

/-- Wave offset `Math.sin(r * 0.8 + c * 0.6) * cellW * 0.15`. -/
noncomputable def waveOffsetX (r c : Nat) (cw : ℝ) : ℝ :=
  Real.sin ((r : ℝ) * 0.8 + (c : ℝ) * 0.6) * cw * 0.15

/-- Wave offset `Math.cos(r * 0.5 + c * 0.9) * cellH * 0.12`. -/
noncomputable def waveOffsetY (r c : Nat) (ch : ℝ) : ℝ :=
  Real.cos ((r : ℝ) * 0.5 + (c : ℝ) * 0.9) * ch * 0.12

/-- Honeycomb offset `(r % 2 === 0) ? cellW * 0.08 : -cellW * 0.08`. -/
noncomputable def honeycombOffset (r : Nat) (cw : ℝ) : ℝ :=
  if r % 2 = 0 then cw * 0.08 else -(cw * 0.08)

/-- Jitter of the second ResultsMap variant:
`(rand() - 0.5) * cellW * 0.28 + (c % 2 === 0 ? -cellW * 0.06 : cellW * 0.06)`. -/
noncomputable def jitterX (seed : String) (c : Nat) (cw : ℝ) : ℝ :=
  ((seededRandomDraw seed 0 : ℝ) - 0.5) * cw * 0.28 +
    (if c % 2 = 0 then -(cw * 0.06) else cw * 0.06)

/-- Jitter of the second ResultsMap variant: `(rand() - 0.5) * cellH * 0.36`. -/
noncomputable def jitterY (seed : String) (ch : ℝ) : ℝ :=
  ((seededRandomDraw seed 1 : ℝ) - 0.5) * ch * 0.36

/-- Position of node `i` in the first ResultsMap variant:
`cx = left + (c + 0.5) * cellW + baseJitterX + waveOffsetX + honeycombOffset`,
`cy = top - (r + 0.5) * cellH + baseJitterY + waveOffsetY` with
`r = Math.floor(i / cols)`, `c = i % cols`. -/
noncomputable def posV1 (seed : String) (i n : Nat) (vw vh : ℝ) : ℝ × ℝ :=
  let k := cols n vw vh
  let r := i / k
  let c := i % k
  let cw := cellW n vw vh
  let ch := cellH n vw vh
  (-(usableW vw) / 2 + ((c : ℝ) + 0.5) * cw + baseJitterX seed cw +
      waveOffsetX r c cw + honeycombOffset r cw,
   usableH vh / 2 - ((r : ℝ) + 0.5) * ch + baseJitterY seed ch + waveOffsetY r c ch)

/-- Position of node `i` in the second ResultsMap variant:
`cx = left + (c + 0.5) * cellW + jitterX`, `cy = top - (r + 0.5) * cellH + jitterY`. -/
noncomputable def posV2 (seed : String) (i n : Nat) (vw vh : ℝ) : ℝ × ℝ :=
  let k := cols n vw vh
  let r := i / k
  let c := i % k
  let cw := cellW n vw vh
  let ch := cellH n vw vh
  (-(usableW vw) / 2 + ((c : ℝ) + 0.5) * cw + jitterX seed c cw,
   usableH vh / 2 - ((r : ℝ) + 0.5) * ch + jitterY seed ch)

/-- Loop bound `const n = Math.max(datasets.length, 1)`. -/
def nClamp (datasets : List Dataset) : Nat := max datasets.length 1

/-- The `generateNodesScatter` function of the first ResultsMap variant.
The loop body dereferences `datasets[i]`; when the list is empty the clamp
forces one iteration and `datasets[0]` is `undefined`, so reading `.id`
throws a `TypeError` — modelled by `none`. -/
noncomputable def generateNodesScatter (datasets : List Dataset) (vw vh : ℝ) :
    Option (List (Dataset × ℝ × ℝ) × (ℝ × ℝ)) :=
  ((List.range (nClamp datasets)).mapM fun i =>
      (datasets[i]?).map fun d => (d, posV1 (seedFor d i) i (nClamp datasets) vw vh)).map
    fun nodes => (nodes, (cellW (nClamp datasets) vw vh, cellH (nClamp datasets) vw vh))

/-- The `generateNodesScatter` function of the second ResultsMap variant. -/
noncomputable def generateNodesScatterV2 (datasets : List Dataset) (vw vh : ℝ) :
    Option (List (Dataset × ℝ × ℝ) × (ℝ × ℝ)) :=
  ((List.range (nClamp datasets)).mapM fun i =>
      (datasets[i]?).map fun d => (d, posV2 (seedFor d i) i (nClamp datasets) vw vh)).map
    fun nodes => (nodes, (cellW (nClamp datasets) vw vh, cellH (nClamp datasets) vw vh))

/-- Position array (first variant): the layout output projected to positions. -/
noncomputable def positionsV1 (datasets : List Dataset) (vw vh : ℝ) :
    Option (List (ℝ × ℝ)) :=
  (generateNodesScatter datasets vw vh).map fun p => p.1.map Prod.snd

/-- Position array (second variant). -/
noncomputable def positionsV2 (datasets : List Dataset) (vw vh : ℝ) :
    Option (List (ℝ × ℝ)) :=
  (generateNodesScatterV2 datasets vw vh).map fun p => p.1.map Prod.snd

/-- Position of the node at index `i` (first variant). -/
noncomputable def posAtV1 (datasets : List Dataset) (vw vh : ℝ) (i : Nat) : ℝ × ℝ :=
  ((positionsV1 datasets vw vh).getD []).getD i (0, 0)

/-- Position of the node at index `i` (second variant). -/
noncomputable def posAtV2 (datasets : List Dataset) (vw vh : ℝ) (i : Nat) : ℝ × ℝ :=
  ((positionsV2 datasets vw vh).getD []).getD i (0, 0)

/-- Center of the grid cell assigned to node `i`, x-coordinate
(`left + (c + 0.5) * cellW`). -/
noncomputable def cellCenterX (n : Nat) (vw vh : ℝ) (i : Nat) : ℝ :=
  -(usableW vw) / 2 + ((i % cols n vw vh : Nat) + 0.5) * cellW n vw vh

/-- Center of the grid cell assigned to node `i`, y-coordinate
(`top - (r + 0.5) * cellH`). -/
noncomputable def cellCenterY (n : Nat) (vw vh : ℝ) (i : Nat) : ℝ :=
  usableH vh / 2 - ((i / cols n vw vh : Nat) + 0.5) * cellH n vw vh

/-! ### The App component of `src/frontend/vite.config.ts` -/

/-- Search result shape (`TavilySearchOutput`). -/
structure SearchResult where
  title : String
  url : String
  content : String
deriving DecidableEq

/-- Spherical planet placement for search result `idx` of `n`:
`theta = (idx / numResults) * Math.PI * 2`,
`phi = Math.acos(2 * (idx / numResults) - 1)`,
`r = 40 + Math.random() * 15 + (idx % 3) * 5`, converted to Cartesian
coordinates.  The `Math.random()` draw is passed in as `rand`. -/
noncomputable def planetPosition (idx n : Nat) (rand : ℝ) : ℝ × ℝ × ℝ :=
  let theta : ℝ := ((idx : ℝ) / (n : ℝ)) * Real.pi * 2
  let phi : ℝ := Real.arccos (2 * ((idx : ℝ) / (n : ℝ)) - 1)
  let r : ℝ := 40 + rand * 15 + ((idx % 3 : Nat) : ℝ) * 5
  (r * Real.sin phi * Real.cos theta,
   r * Real.sin phi * Real.sin theta,
   r * Real.cos phi)

/-- Positions produced by one run of the planet-creation effect.  Each
planet consumes one ambient `Math.random()` draw, modelled by the
`entropy` stream (one value per index, each in `[0, 1)`). -/
noncomputable def planetPositions (results : List SearchResult) (entropy : Nat → ℝ) :
    List (ℝ × ℝ × ℝ) :=
  (List.range results.length).map fun idx =>
    planetPosition idx results.length (entropy idx)

/-- Dataset categories returned by `determineDatasetType`. -/
inductive DType
  | tabular
  | images
  | text
  | other
deriving DecidableEq

/-- Lower-cased character list of a string (`content.toLowerCase()`); the
string functions of the Lean core library recurse on byte positions, so
the classifier is modelled directly on character lists. -/
def lowerChars (s : String) : List Char := s.toList.map Char.toLower

/-- Substring test, the JavaScript `String.prototype.includes`. -/
def includes (l : List Char) (kw : String) : Bool := decide (kw.toList <:+: l)

/-- Keyword group test: an `||` chain of `includes` checks. -/
def hasAny (l : List Char) (kws : List String) : Bool := kws.any (includes l)

def tabularKws : List String :=
  ["csv", "excel", "table", "spreadsheet", "dataframe", "columns", "rows", "tabular"]

def imageKws : List String :=
  ["image", "photo", "picture", "visual", "vision", "computer vision",
   "classification", "detection"]

def textKws : List String :=
  ["text", "document", "article", "news", "nlp", "natural language",
   "sentiment", "language model", "translation", "summarization"]

def timeSeriesKws : List String :=
  ["time series", "temporal", "forecasting", "trend", "sequence", "chronological"]

def audioKws : List String :=
  ["audio", "sound", "speech", "music", "voice", "acoustic"]

def graphKws : List String :=
  ["graph", "network", "social", "relationship", "connection", "node"]

/-- The `determineDatasetType` helper: keyword groups are tested against the
lower-cased content in source order (tabular, image, text, time-series,
audio, graph), the first matching group deciding the category; audio,
graph and no-match all yield `other`. -/
def determineDatasetType (content : String) : DType :=
  let lc := lowerChars content
  if hasAny lc tabularKws then .tabular
  else if hasAny lc imageKws then .images
  else if hasAny lc textKws then .text
  else if hasAny lc timeSeriesKws then .tabular
  else if hasAny lc audioKws then .other
  else if hasAny lc graphKws then .other
  else .other

/-- UI states of the App component (`type UIState`). -/
inductive UIState
  | landing
  | searching
  | results
  | detail
deriving DecidableEq

/-! #### Click handling (`handleClick`)

`raycaster.intersectObjects` is a three.js library call; per its contract
it returns the intersections sorted by ascending distance from the camera.
Each intersection is modelled as the index of the hit planet together
with its camera-space distance along the ray. -/

/-- One ray intersection: the planet hit and its distance along the ray. -/
structure RayHit where
  planet : Nat
  dist : ℚ
deriving DecidableEq

/-- Comparator used to model the ascending-distance order of
`raycaster.intersectObjects`. -/
def hitLE (a b : RayHit) : Bool := decide (a.dist ≤ b.dist)

/-- The intersection list sorted by ascending distance, the contract of
`raycaster.intersectObjects`. -/
def intersectObjects (hits : List RayHit) : List RayHit := hits.mergeSort hitLE

/-- The part of the App state that `handleClick` touches. -/
structure ClickState where
  ui : UIState
  selected : Option Nat
deriving DecidableEq

/-- The `handleClick` listener: on a nonempty intersection list it takes
`intersects[0]`, resolves it to its planet and enters the detail state;
on an empty list it does nothing. -/
def handleClick (hits : List RayHit) (s : ClickState) : ClickState :=
  match intersectObjects hits with
  | [] => s
  | h :: _ => ⟨UIState.detail, some h.planet⟩

/-- Normalized device coordinates computed by `handleClick`:
`mouse.x = ((clientX - rect.left) / rect.width) * 2 - 1`,
`mouse.y = -((clientY - rect.top) / rect.height) * 2 + 1`. -/
def ndcOfPointer (clientX clientY left top width height : ℚ) : ℚ × ℚ :=
  (((clientX - left) / width) * 2 - 1, -((clientY - top) / height) * 2 + 1)

/-! #### The UI state machine of the App component -/

/-- Abstraction of the App state: current `uiState`, `selectedPlanet`
(by index), and the number of live planet meshes (`planetsRef`). -/
structure AppModel where
  ui : UIState
  selected : Option Nat
  nplanets : Nat
deriving DecidableEq

/-- Initial state: `useState<UIState>('landing')`, no selection, no planets. -/
def initModel : AppModel := ⟨UIState.landing, none, 0⟩

/-- User-visible events: a search response (ok with `n` results, or an
error), a canvas click that hits planet `p` or misses, and the two back
buttons. -/
inductive AppEvent
  | searchOk (n : Nat)
  | searchFail
  | clickHit (p : Nat)
  | clickMiss
  | backToResults
  | backToLanding

/-- One step of the App component.  A search response is asynchronous:
`handleSearch`'s success continuation (`setSearchResults(data.results);
setUiState('results')`) runs unconditionally whenever the response
arrives, in whatever UI state the app is in by then — the Enter key
handler of the search input is not disabled while a fetch is pending, so
several fetches can be in flight and a late response can arrive after
the state has moved on.  It sets `searchResults` and `uiState` but leaves
`selectedPlanet` untouched; the planet-rebuild effect replaces the meshes
only when the new result list is nonempty.  The guards on the remaining
events encode which control is mounted: the back-to-galaxy button exists
only on the detail overlay (which also requires a selected planet), the
back-to-observatory button only on the results overlay, and the canvas
click listener is attached only while planet meshes exist. -/
def step (s : AppModel) : AppEvent → AppModel
  | .searchOk n => ⟨UIState.results, s.selected, if n = 0 then s.nplanets else n⟩
  | .searchFail => s
  | .clickHit p =>
      if s.nplanets ≠ 0 ∧ p < s.nplanets then ⟨UIState.detail, some p, s.nplanets⟩ else s
  | .clickMiss => s
  | .backToResults =>
      if s.ui = UIState.detail ∧ s.selected.isSome then
        ⟨UIState.results, none, s.nplanets⟩
      else s
  | .backToLanding =>
      if s.ui = UIState.results then ⟨UIState.landing, none, s.nplanets⟩ else s

/-- State reached from the initial state by a sequence of events. -/
def run (evs : List AppEvent) : AppModel := evs.foldl step initModel

/-! #### GPU resource lifecycle of the App component

The scene-initialization effect creates the stars geometry and material;
each planet-creation run creates a sphere geometry and material plus a
glow geometry and material per result (removing the previous meshes from
the scene without disposing them); the effect cleanup disposes exactly
the stars geometry and material. -/

inductive GpuKind
  | geometry
  | material

inductive GpuEvent
  | create (k : GpuKind)
  | dispose (k : GpuKind)

/-- Creations of the scene-initialization effect (`starsGeometry`,
`starsMaterial`). -/
def initEvents : List GpuEvent := [.create .geometry, .create .material]

/-- Creations for one planet (`planetGeometry`, `planetMaterial`,
`glowGeometry`, `glowMaterial`). -/
def planetEvents : List GpuEvent :=
  [.create .geometry, .create .material, .create .geometry, .create .material]

/-- Resource events of one planet-creation run for `n` search results;
the preceding `scene.remove` calls on the old planets dispose nothing. -/
def rebuildEvents (n : Nat) : List GpuEvent :=
  (List.range n).flatMap fun _ => planetEvents

/-- Disposals performed by the effect cleanup (`starsGeometry.dispose()`,
`starsMaterial.dispose()`; `renderer.dispose()` frees no geometry,
material or texture). -/
def teardownEvents : List GpuEvent := [.dispose .geometry, .dispose .material]

/-- Resource events of a full session: mount, one rebuild per entry of
`runs` (with that many search results), then unmount. -/
def sessionTrace (runs : List Nat) : List GpuEvent :=
  initEvents ++ runs.flatMap rebuildEvents ++ teardownEvents

def isCreate : GpuEvent → Bool
  | .create _ => true
  | .dispose _ => false

def isDispose : GpuEvent → Bool
  | .create _ => false
  | .dispose _ => true

def createCount (t : List GpuEvent) : Nat := (t.filter isCreate).length

def disposeCount (t : List GpuEvent) : Nat := (t.filter isDispose).length

/-! ### Teardown sequences

The App component cleanup (`vite.config.ts`): remove the resize listener,
cancel the pending animation frame, then dispose the renderer, stars
geometry and stars material.  The landing-page variant
(`src/unnamed/part_000`): its `animate` loop never stores the id returned
by `requestAnimationFrame`, and its cleanup removes the listener and
disposes resources without any cancellation. -/

inductive CleanupStep
  | removeListener
  | cancelFrame
  | disposeResource

def isCancelStep : CleanupStep → Bool
  | .cancelFrame => true
  | _ => false

def isDisposeStep : CleanupStep → Bool
  | .disposeResource => true
  | _ => false

/-- Cleanup of the App component scene effect.  By the time cleanup runs,
`animate` has executed at least once, so `animationIdRef.current` holds a
positive request id and the guarded `cancelAnimationFrame` executes. -/
def appCleanup : List CleanupStep :=
  [.removeListener, .cancelFrame, .disposeResource, .disposeResource, .disposeResource]

/-- Cleanup of the landing-page scene effect of `src/unnamed/part_000`. -/
def landingCleanup : List CleanupStep :=
  [.removeListener, .disposeResource, .disposeResource, .disposeResource]

/-- Whether a cancellation step occurs before the first disposal. -/
def cancelsBeforeAnyDispose (steps : List CleanupStep) : Bool :=
  (steps.takeWhile fun s => !(isDisposeStep s)).any isCancelStep

/-- Whether a frame request pending when teardown starts is still pending
after the steps run: the continuously self-rescheduling loop keeps a
request pending unless some step cancels it. -/
def framePendingAfter (steps : List CleanupStep) (pending : Bool) : Bool :=
  pending && !(steps.any isCancelStep)

/-! ### Results page of `src/unnamed/part_003` -/

/-- What the results page body renders. -/
inductive ResultsView
  | loading
  | failed (msg : String)
  | empty
  | resultsMap (datasets : List Dataset)
deriving DecidableEq

/-- Rendering decision of the Results component: loading spinner, error
banner, the empty-state placeholder when the dataset list is empty, and
the ResultsMap canvas (hence the layout) only otherwise. -/
def resultsBody (loading : Bool) (err : Option String) (datasets : List Dataset) :
    ResultsView :=
  if loading then .loading
  else
    match err with
    | some e => .failed e
    | none => if datasets.length = 0 then .empty else .resultsMap datasets

/-! ### Relevance weights of the ResultsMap Scene

`vals = datasets.map(d => d.num_files || 0); min = Math.min(...vals);
max = Math.max(...vals); span = Math.max(1, max - min);
weights = datasets.map(d => (d.num_files - min) / span)` (identical in
both ResultsMap variants; `|| 0` is the identity on a number field). -/

/-- Spread minimum `Math.min(...vals)` of a value list (0 for the empty
list, where JavaScript would give `Infinity`; the weights code never
consumes that case since the mapped list is empty too). -/
def jsMin : List Nat → Nat
  | [] => 0
  | v :: vs => vs.foldl min v

/-- Spread maximum `Math.max(...vals)`. -/
def jsMax : List Nat → Nat
  | [] => 0
  | v :: vs => vs.foldl max v

/-- Normalized relevance weights of the Scene component. -/
def weights (datasets : List Dataset) : List ℚ :=
  let vals := datasets.map fun d => d.num_files
  let mn := jsMin vals
  let span : ℚ := max 1 ((jsMax vals : ℚ) - (mn : ℚ))
  datasets.map fun d => ((d.num_files : ℚ) - (mn : ℚ)) / span

/-! ### Concrete records used in witnesses and counterexamples -/

def dsA : Dataset := ⟨"a", "ua", none, none, none, 1⟩

def dsB : Dataset := ⟨"b", "ub", none, none, none, 2⟩

def dsC : Dataset := ⟨"c", "uc", none, none, none, 3⟩

def dsD : Dataset := ⟨"d", "ud", none, none, none, 4⟩

/-- Same id as `dsA`, every other field different. -/
def dsA2 : Dataset := ⟨"a", "other-url", some "Other", some "desc", some "regression", 9⟩

def sampleResult : SearchResult := ⟨"t", "u", "c"⟩

/-- Sample description containing both a tabular and an image keyword. -/
def csvImageContent : String := "A CSV table of image labels"

/-- A far intersection (planet 0 at distance 5). -/
def hitFar : RayHit := ⟨0, 5⟩

/-- A near intersection (planet 1 at distance 2). -/
def hitNear : RayHit := ⟨1, 2⟩

end Nexora

namespace Nexora

theorem u32_lt (x : Nat) : u32 x < 4294967296 :=
  Nat.mod_lt _ (by norm_num)

theorem mulberryOut_lt (h : Nat) : mulberryOut h < 4294967296 := by
  have h32 : (4294967296 : Nat) = 2 ^ 32 := by norm_num
  unfold mulberryOut
  have ht : u32 ((u32 h ^^^ u32 h / 32768) * (u32 h ||| 1)) < 2 ^ 32 := h32 ▸ u32_lt _
  set t := u32 ((u32 h ^^^ u32 h / 32768) * (u32 h ||| 1)) with hT
  have ht2 : (t ^^^ u32 (t + u32 ((t ^^^ t / 128) * (t ||| 61)))) < 2 ^ 32 :=
    Nat.xor_lt_two_pow ht (h32 ▸ u32_lt _)
  set t2 := t ^^^ u32 (t + u32 ((t ^^^ t / 128) * (t ||| 61))) with hT2
  have hdiv : t2 / 16384 < 2 ^ 32 := lt_of_le_of_lt (Nat.div_le_self _ _) ht2
  simpa [h32] using Nat.xor_lt_two_pow ht2 hdiv

theorem seededRandomDraw_nonneg (seed : String) (call : Nat) :
    0 ≤ seededRandomDraw seed call := by
  unfold seededRandomDraw
  positivity

theorem seededRandomDraw_lt_one (seed : String) (call : Nat) :
    seededRandomDraw seed call < 1 := by
  unfold seededRandomDraw
  rw [div_lt_one (by norm_num)]
  exact_mod_cast mulberryOut_lt _

/-! ### Structural lemmas about the layout -/

theorem mapM_eq_some_map {α β : Type} (f : α → Option β) (g : α → β) (l : List α)
    (h : ∀ a ∈ l, f a = some (g a)) : l.mapM f = some (l.map g) := by
  induction l with
  | nil => rfl
  | cons a l ih =>
    rw [List.mapM_cons, h a (List.mem_cons_self a l),
      ih fun x hx => h x (List.mem_cons_of_mem _ hx)]
    rfl

theorem nClamp_eq (datasets : List Dataset) (h : datasets ≠ []) :
    nClamp datasets = datasets.length := by
  have := List.length_pos.mpr h
  unfold nClamp
  omega

theorem generateNodesScatter_eq_some (datasets : List Dataset) (vw vh : ℝ)
    (h : datasets ≠ []) :
    generateNodesScatter datasets vw vh =
      some ((List.range datasets.length).map fun i =>
          (datasets.getD i defaultDataset,
           posV1 (seedFor (datasets.getD i defaultDataset) i) i datasets.length vw vh),
        (cellW datasets.length vw vh, cellH datasets.length vw vh)) := by
  unfold generateNodesScatter
  rw [nClamp_eq datasets h]
  rw [mapM_eq_some_map _ (fun i =>
    (datasets.getD i defaultDataset,
     posV1 (seedFor (datasets.getD i defaultDataset) i) i datasets.length vw vh))]
  · rfl
  · intro i hi
    rw [List.mem_range] at hi
    simp [List.getElem?_eq_getElem hi, List.getD_eq_getElem?_getD]

theorem generateNodesScatterV2_eq_some (datasets : List Dataset) (vw vh : ℝ)
    (h : datasets ≠ []) :
    generateNodesScatterV2 datasets vw vh =
      some ((List.range datasets.length).map fun i =>
          (datasets.getD i defaultDataset,
           posV2 (seedFor (datasets.getD i defaultDataset) i) i datasets.length vw vh),
        (cellW datasets.length vw vh, cellH datasets.length vw vh)) := by
  unfold generateNodesScatterV2
  rw [nClamp_eq datasets h]
  rw [mapM_eq_some_map _ (fun i =>
    (datasets.getD i defaultDataset,
     posV2 (seedFor (datasets.getD i defaultDataset) i) i datasets.length vw vh))]
  · rfl
  · intro i hi
    rw [List.mem_range] at hi
    simp [List.getElem?_eq_getElem hi, List.getD_eq_getElem?_getD]

theorem positionsV1_eq (datasets : List Dataset) (vw vh : ℝ) (h : datasets ≠ []) :
    positionsV1 datasets vw vh =
      some ((List.range datasets.length).map fun i =>
        posV1 (seedFor (datasets.getD i defaultDataset) i) i datasets.length vw vh) := by
  unfold positionsV1
  rw [generateNodesScatter_eq_some datasets vw vh h]
  simp

theorem positionsV2_eq (datasets : List Dataset) (vw vh : ℝ) (h : datasets ≠ []) :
    positionsV2 datasets vw vh =
      some ((List.range datasets.length).map fun i =>
        posV2 (seedFor (datasets.getD i defaultDataset) i) i datasets.length vw vh) := by
  unfold positionsV2
  rw [generateNodesScatterV2_eq_some datasets vw vh h]
  simp

theorem posAtV1_eq (datasets : List Dataset) (vw vh : ℝ) (i : Nat)
    (h : datasets ≠ []) (hi : i < datasets.length) :
    posAtV1 datasets vw vh i =
      posV1 (seedFor (datasets.getD i defaultDataset) i) i datasets.length vw vh := by
  unfold posAtV1
  rw [positionsV1_eq datasets vw vh h]
  simp [List.getD_eq_getElem?_getD, hi]

theorem posAtV2_eq (datasets : List Dataset) (vw vh : ℝ) (i : Nat)
    (h : datasets ≠ []) (hi : i < datasets.length) :
    posAtV2 datasets vw vh i =
      posV2 (seedFor (datasets.getD i defaultDataset) i) i datasets.length vw vh := by
  unfold posAtV2
  rw [positionsV2_eq datasets vw vh h]
  simp [List.getD_eq_getElem?_getD, hi]

theorem seedFor_eq_of_id (d1 d2 : Dataset) (i j : Nat) (hid : d1.id = d2.id)
    (hne : d1.id ≠ "") : seedFor d1 i = seedFor d2 j := by
  unfold seedFor
  rw [if_pos hne, if_pos (hid ▸ hne)]
  exact hid

/-! ### C1: determinism of the layout -/

/-- C1 (amended): the planar grid+jitter layout is a function of the
dataset-id list and the viewport extents alone — two invocations on lists
carrying the same (nonempty) id strings in the same order, with the same
viewport extents, produce identical position arrays, in both ResultsMap
variants.  (The spherical planet placement is excluded by the
counterexample: its radius consumes `Math.random()`.) -/
theorem planar_layout_deterministic_in_ids (ds1 ds2 : List Dataset) (vw vh : ℝ)
    (hlen : ds1.length = ds2.length)
    (hids : ∀ i, i < ds1.length →
      (ds1.getD i defaultDataset).id = (ds2.getD i defaultDataset).id ∧
      (ds1.getD i defaultDataset).id ≠ "") :
    positionsV1 ds1 vw vh = positionsV1 ds2 vw vh ∧
    positionsV2 ds1 vw vh = positionsV2 ds2 vw vh := by
  by_cases h1 : ds1 = []
  · have h2 : ds2 = [] := by
      apply List.length_eq_zero.mp
      rw [← hlen, h1]
      rfl
    rw [h1, h2]
    exact ⟨rfl, rfl⟩
  · have h2 : ds2 ≠ [] := by
      intro h
      apply h1
      apply List.length_eq_zero.mp
      rw [hlen, h]
      rfl
    have key : ∀ i ∈ List.range ds1.length,
        seedFor (ds1.getD i defaultDataset) i = seedFor (ds2.getD i defaultDataset) i := by
      intro i hi
      rw [List.mem_range] at hi
      exact seedFor_eq_of_id _ _ _ _ (hids i hi).1 (hids i hi).2
    constructor
    · rw [positionsV1_eq ds1 vw vh h1, positionsV1_eq ds2 vw vh h2, ← hlen]
      exact congrArg some (List.map_congr_left fun i hi => by rw [key i hi])
    · rw [positionsV2_eq ds1 vw vh h1, positionsV2_eq ds2 vw vh h2, ← hlen]
      exact congrArg some (List.map_congr_left fun i hi => by rw [key i hi])

/-- Witness for C1: two singleton lists sharing the id string `"a"` but
differing in every other field produce identical position arrays. -/
theorem planar_layout_deterministic_in_ids_witness :
    ([dsA] : List Dataset).length = ([dsA2] : List Dataset).length ∧
    (positionsV1 [dsA] 72 86 = positionsV1 [dsA2] 72 86 ∧
     positionsV2 [dsA] 72 86 = positionsV2 [dsA2] 72 86) :=
  ⟨rfl, planar_layout_deterministic_in_ids [dsA] [dsA2] 72 86 rfl (by decide)⟩

/-- C1 counterexample: the spherical planet placement consumes
`Math.random()` for the radius, so two invocations on the same search
result list with the same viewport can return different position arrays.
The entropy streams constantly 0 and constantly 1/2 are both legal
`Math.random()` outputs (final four conjuncts), yet the planet of a
one-element result list lands at two different positions. -/
theorem spherical_placement_not_deterministic :
    planetPositions [sampleResult] (fun _ => 0) ≠
      planetPositions [sampleResult] (fun _ => 1 / 2) ∧
    (0 : ℝ) ≤ 0 ∧ (0 : ℝ) < 1 ∧ (0 : ℝ) ≤ 1 / 2 ∧ (1 / 2 : ℝ) < 1 := by
  have key : ∀ rand : ℝ, planetPosition 0 1 rand = (0, 0, -(40 + rand * 15)) := by
    intro rand
    unfold planetPosition
    norm_num [Real.arccos_neg_one, Real.sin_pi, Real.cos_pi]
  refine ⟨?_, le_refl 0, one_pos, by norm_num, by norm_num⟩
  intro h
  have e0 : planetPositions [sampleResult] (fun _ => 0) = [planetPosition 0 1 0] := by
    simp [planetPositions, show List.range 1 = [0] from rfl]
  have e1 : planetPositions [sampleResult] (fun _ => 1 / 2) =
      [planetPosition 0 1 (1 / 2)] := by
    simp [planetPositions, show List.range 1 = [0] from rfl]
  rw [e0, e1, key 0, key (1 / 2)] at h
  norm_num [Prod.ext_iff] at h

/-! ### C2: dependence of a position on the node index -/

theorem gridAspect_72_86 : gridAspect 72 86 = 1 := by
  unfold gridAspect usableW usableH
  norm_num

theorem sqrt_four : Real.sqrt 4 = 2 := by
  rw [show (4 : ℝ) = 2 ^ 2 by norm_num]
  exact Real.sqrt_sq (by norm_num)

theorem cols_4_72_86 : cols 4 72 86 = 2 := by
  unfold cols
  rw [gridAspect_72_86, show ((4 : Nat) : ℝ) * 1 = 4 by norm_num, sqrt_four,
    show ((2 : ℝ) = ((2 : ℤ) : ℝ)) by norm_num, Int.ceil_intCast]
  rfl

theorem rows_4_72_86 : rows 4 72 86 = 2 := by
  unfold rows
  rw [cols_4_72_86, show ((4 : Nat) : ℝ) / ((2 : Nat) : ℝ) = ((2 : ℤ) : ℝ) by norm_num,
    Int.ceil_intCast]
  rfl

theorem cellH_4_72_86 : cellH 4 72 86 = 30.96 := by
  unfold cellH usableH
  rw [rows_4_72_86]
  norm_num

/-- C2 counterexample: the same dataset (id `"a"`), moved from index 0 of a
four-element list to index 3 of a reordering of the same list, with the
same viewport extents, is assigned a different position — the cell center
depends on the index, so the position is not a function of the id and the
viewport alone. -/
theorem planar_position_changes_with_index :
    posAtV2 [dsA, dsB, dsC, dsD] 72 86 0 ≠ posAtV2 [dsB, dsC, dsD, dsA] 72 86 3 := by
  rw [posAtV2_eq _ 72 86 0 (by decide) (by decide),
    posAtV2_eq _ 72 86 3 (by decide) (by decide)]
  show posV2 (seedFor dsA 0) 0 4 72 86 ≠ posV2 (seedFor dsA 3) 3 4 72 86
  rw [show seedFor dsA 0 = "a" by decide, show seedFor dsA 3 = "a" by decide]
  intro h
  have h2 := congrArg Prod.snd h
  simp only [posV2, cols_4_72_86] at h2
  norm_num at h2
  rw [cellH_4_72_86] at h2
  linarith [h2]

/-- C2 (amended): a node's planar position is a function of its own id
string, its index, the list length and the viewport extents only — it does
not depend on the other datasets.  Replacing every other element while
keeping the dataset (by nonempty id) at the same index of an equal-length
list leaves its position unchanged, in both ResultsMap variants.  (The
counterexample shows that the position does change when the index itself
shifts, because the assigned cell center moves.) -/
theorem planar_position_stable_at_fixed_index (ds1 ds2 : List Dataset) (vw vh : ℝ)
    (i : Nat) (hlen : ds1.length = ds2.length) (hi : i < ds1.length)
    (hid : (ds1.getD i defaultDataset).id = (ds2.getD i defaultDataset).id)
    (hne : (ds1.getD i defaultDataset).id ≠ "") :
    posAtV1 ds1 vw vh i = posAtV1 ds2 vw vh i ∧
    posAtV2 ds1 vw vh i = posAtV2 ds2 vw vh i := by
  have hp1 : 0 < ds1.length := Nat.lt_of_le_of_lt (Nat.zero_le i) hi
  have h1 : ds1 ≠ [] := List.length_pos.mp hp1
  have h2 : ds2 ≠ [] := List.length_pos.mp (hlen ▸ hp1)
  constructor
  · rw [posAtV1_eq ds1 vw vh i h1 hi, posAtV1_eq ds2 vw vh i h2 (hlen ▸ hi), ← hlen,
      seedFor_eq_of_id _ _ i i hid hne]
  · rw [posAtV2_eq ds1 vw vh i h1 hi, posAtV2_eq ds2 vw vh i h2 (hlen ▸ hi), ← hlen,
      seedFor_eq_of_id _ _ i i hid hne]

/-- Witness for C2 (amended): the dataset with id `"a"` keeps its position
at index 0 when the rest of the list is replaced. -/
theorem planar_position_stable_at_fixed_index_witness :
    ([dsA, dsB] : List Dataset).length = ([dsA2, dsD] : List Dataset).length ∧
    0 < ([dsA, dsB] : List Dataset).length ∧
    (posAtV1 [dsA, dsB] 72 86 0 = posAtV1 [dsA2, dsD] 72 86 0 ∧
     posAtV2 [dsA, dsB] 72 86 0 = posAtV2 [dsA2, dsD] 72 86 0) :=
  ⟨rfl, by decide,
    planar_position_stable_at_fixed_index [dsA, dsB] [dsA2, dsD] 72 86 0 rfl (by decide)
      (by decide) (by decide)⟩

/-! ### C3: bounds on the planar layout -/

theorem usableW_pos (vw : ℝ) (h : 0 < vw) : 0 < usableW vw := by
  unfold usableW
  nlinarith

theorem usableH_pos (vh : ℝ) (h : 0 < vh) : 0 < usableH vh := by
  unfold usableH
  nlinarith

theorem cols_pos (n : Nat) (vw vh : ℝ) (hn : 0 < n) (hw : 0 < vw) (hh : 0 < vh) :
    0 < cols n vw vh := by
  unfold cols
  have ha : 0 < gridAspect vw vh := div_pos (usableW_pos vw hw) (usableH_pos vh hh)
  have hx : 0 < (n : ℝ) * gridAspect vw vh :=
    mul_pos (by exact_mod_cast hn) ha
  have hs : 0 < Real.sqrt ((n : ℝ) * gridAspect vw vh) := Real.sqrt_pos.mpr hx
  have hc := Int.ceil_pos.mpr hs
  omega

theorem rows_pos (n : Nat) (vw vh : ℝ) (hn : 0 < n) (hw : 0 < vw) (hh : 0 < vh) :
    0 < rows n vw vh := by
  unfold rows
  have hc := cols_pos n vw vh hn hw hh
  have hx : 0 < (n : ℝ) / (cols n vw vh : ℝ) :=
    div_pos (by exact_mod_cast hn) (by exact_mod_cast hc)
  have hr := Int.ceil_pos.mpr hx
  omega

theorem cellW_pos (n : Nat) (vw vh : ℝ) (hn : 0 < n) (hw : 0 < vw) (hh : 0 < vh) :
    0 < cellW n vw vh :=
  div_pos (usableW_pos vw hw) (by exact_mod_cast cols_pos n vw vh hn hw hh)

theorem cellH_pos (n : Nat) (vw vh : ℝ) (hn : 0 < n) (hw : 0 < vw) (hh : 0 < vh) :
    0 < cellH n vw vh :=
  div_pos (usableH_pos vh hh) (by exact_mod_cast rows_pos n vw vh hn hw hh)

theorem cols_mul_cellW (n : Nat) (vw vh : ℝ) (hn : 0 < n) (hw : 0 < vw) (hh : 0 < vh) :
    (cols n vw vh : ℝ) * cellW n vw vh = usableW vw := by
  have hc : (cols n vw vh : ℝ) ≠ 0 := by
    exact_mod_cast Nat.pos_iff_ne_zero.mp (cols_pos n vw vh hn hw hh)
  unfold cellW
  field_simp

theorem rows_mul_cellH (n : Nat) (vw vh : ℝ) (hn : 0 < n) (hw : 0 < vw) (hh : 0 < vh) :
    (rows n vw vh : ℝ) * cellH n vw vh = usableH vh := by
  have hr : (rows n vw vh : ℝ) ≠ 0 := by
    exact_mod_cast Nat.pos_iff_ne_zero.mp (rows_pos n vw vh hn hw hh)
  unfold cellH
  field_simp

theorem le_rows_mul_cols (n : Nat) (vw vh : ℝ) (hn : 0 < n) (hw : 0 < vw) (hh : 0 < vh) :
    n ≤ rows n vw vh * cols n vw vh := by
  have hc := cols_pos n vw vh hn hw hh
  have hcr : (0 : ℝ) < (cols n vw vh : ℝ) := by exact_mod_cast hc
  have hle : (n : ℝ) / (cols n vw vh : ℝ) ≤ (⌈(n : ℝ) / (cols n vw vh : ℝ)⌉ : ℝ) :=
    Int.le_ceil _
  have hnn : 0 ≤ ⌈(n : ℝ) / (cols n vw vh : ℝ)⌉ :=
    Int.ceil_nonneg (div_nonneg (Nat.cast_nonneg n) hcr.le)
  have h1 : (n : ℝ) ≤ (⌈(n : ℝ) / (cols n vw vh : ℝ)⌉ : ℝ) * (cols n vw vh : ℝ) :=
    (div_le_iff₀ hcr).mp hle
  have h2 : ((rows n vw vh : Nat) : ℝ) = (⌈(n : ℝ) / (cols n vw vh : ℝ)⌉ : ℝ) := by
    unfold rows
    exact_mod_cast congrArg Int.cast (Int.toNat_of_nonneg hnn)
  rw [← h2] at h1
  exact_mod_cast h1

theorem abs_draw_sub_half_le (seed : String) (call : Nat) :
    |(seededRandomDraw seed call : ℝ) - 0.5| ≤ 0.5 := by
  have h0 : (0 : ℝ) ≤ (seededRandomDraw seed call : ℝ) := by
    exact_mod_cast seededRandomDraw_nonneg seed call
  have h1 : (seededRandomDraw seed call : ℝ) ≤ 1 := by
    exact_mod_cast (seededRandomDraw_lt_one seed call).le
  rw [abs_le]
  constructor <;> linarith

theorem abs_baseJitterX_le (seed : String) (cw : ℝ) (h : 0 ≤ cw) :
    |baseJitterX seed cw| ≤ cw * 0.25 := by
  unfold baseJitterX
  rw [abs_mul, abs_mul, abs_of_nonneg h, abs_of_nonneg (by norm_num : (0 : ℝ) ≤ 0.5)]
  nlinarith [abs_draw_sub_half_le seed 0,
    abs_nonneg ((seededRandomDraw seed 0 : ℝ) - 0.5)]

theorem abs_baseJitterY_le (seed : String) (ch : ℝ) (h : 0 ≤ ch) :
    |baseJitterY seed ch| ≤ ch * 0.25 := by
  unfold baseJitterY
  rw [abs_mul, abs_mul, abs_of_nonneg h, abs_of_nonneg (by norm_num : (0 : ℝ) ≤ 0.5)]
  nlinarith [abs_draw_sub_half_le seed 1,
    abs_nonneg ((seededRandomDraw seed 1 : ℝ) - 0.5)]

theorem abs_waveOffsetX_le (r c : Nat) (cw : ℝ) (h : 0 ≤ cw) :
    |waveOffsetX r c cw| ≤ cw * 0.15 := by
  unfold waveOffsetX
  rw [abs_mul, abs_mul, abs_of_nonneg h, abs_of_nonneg (by norm_num : (0 : ℝ) ≤ 0.15)]
  nlinarith [Real.abs_sin_le_one ((r : ℝ) * 0.8 + (c : ℝ) * 0.6),
    abs_nonneg (Real.sin ((r : ℝ) * 0.8 + (c : ℝ) * 0.6))]

theorem abs_waveOffsetY_le (r c : Nat) (ch : ℝ) (h : 0 ≤ ch) :
    |waveOffsetY r c ch| ≤ ch * 0.12 := by
  unfold waveOffsetY
  rw [abs_mul, abs_mul, abs_of_nonneg h, abs_of_nonneg (by norm_num : (0 : ℝ) ≤ 0.12)]
  nlinarith [Real.abs_cos_le_one ((r : ℝ) * 0.5 + (c : ℝ) * 0.9),
    abs_nonneg (Real.cos ((r : ℝ) * 0.5 + (c : ℝ) * 0.9))]

theorem abs_honeycombOffset_le (r : Nat) (cw : ℝ) (h : 0 ≤ cw) :
    |honeycombOffset r cw| ≤ cw * 0.08 := by
  unfold honeycombOffset
  have hpos : (0 : ℝ) ≤ cw * 0.08 := by nlinarith
  split
  · rw [abs_of_nonneg hpos]
  · rw [abs_neg, abs_of_nonneg hpos]

theorem abs_jitterX_le (seed : String) (c : Nat) (cw : ℝ) (h : 0 ≤ cw) :
    |jitterX seed c cw| ≤ cw * 0.2 := by
  unfold jitterX
  have h1 : |((seededRandomDraw seed 0 : ℝ) - 0.5) * cw * 0.28| ≤ cw * 0.14 := by
    rw [abs_mul, abs_mul, abs_of_nonneg h, abs_of_nonneg (by norm_num : (0 : ℝ) ≤ 0.28)]
    nlinarith [abs_draw_sub_half_le seed 0,
      abs_nonneg ((seededRandomDraw seed 0 : ℝ) - 0.5)]
  have h2 : |if c % 2 = 0 then -(cw * 0.06) else cw * 0.06| ≤ cw * 0.06 := by
    have hpos : (0 : ℝ) ≤ cw * 0.06 := by nlinarith
    split
    · rw [abs_neg, abs_of_nonneg hpos]
    · rw [abs_of_nonneg hpos]
  calc |((seededRandomDraw seed 0 : ℝ) - 0.5) * cw * 0.28 +
        (if c % 2 = 0 then -(cw * 0.06) else cw * 0.06)| ≤
      |((seededRandomDraw seed 0 : ℝ) - 0.5) * cw * 0.28| +
        |if c % 2 = 0 then -(cw * 0.06) else cw * 0.06| := abs_add _ _
    _ ≤ cw * 0.14 + cw * 0.06 := add_le_add h1 h2
    _ = cw * 0.2 := by ring

theorem abs_jitterY_le (seed : String) (ch : ℝ) (h : 0 ≤ ch) :
    |jitterY seed ch| ≤ ch * 0.36 := by
  unfold jitterY
  rw [abs_mul, abs_mul, abs_of_nonneg h, abs_of_nonneg (by norm_num : (0 : ℝ) ≤ 0.36)]
  nlinarith [abs_draw_sub_half_le seed 1,
    abs_nonneg ((seededRandomDraw seed 1 : ℝ) - 0.5)]

/-- Combined x-offset of the first variant is at most half a cell width:
0.25 + 0.15 + 0.08 = 0.48 ≤ 0.5. -/
theorem abs_offV1X_le (seed : String) (r c : Nat) (cw : ℝ) (h : 0 ≤ cw) :
    |baseJitterX seed cw + waveOffsetX r c cw + honeycombOffset r cw| ≤ cw / 2 := by
  have h1 := abs_baseJitterX_le seed cw h
  have h2 := abs_waveOffsetX_le r c cw h
  have h3 := abs_honeycombOffset_le r cw h
  have := abs_add_three (baseJitterX seed cw) (waveOffsetX r c cw) (honeycombOffset r cw)
  linarith

/-- Combined y-offset of the first variant: 0.25 + 0.12 = 0.37 ≤ 0.5. -/
theorem abs_offV1Y_le (seed : String) (r c : Nat) (ch : ℝ) (h : 0 ≤ ch) :
    |baseJitterY seed ch + waveOffsetY r c ch| ≤ ch / 2 := by
  have h1 := abs_baseJitterY_le seed ch h
  have h2 := abs_waveOffsetY_le r c ch h
  have := abs_add (baseJitterY seed ch) (waveOffsetY r c ch)
  linarith

/-- Combined x-offset of the second variant: 0.14 + 0.06 = 0.2 ≤ 0.5. -/
theorem abs_offV2X_le (seed : String) (c : Nat) (cw : ℝ) (h : 0 ≤ cw) :
    |jitterX seed c cw| ≤ cw / 2 := by
  have := abs_jitterX_le seed c cw h
  linarith

/-- Combined y-offset of the second variant: 0.36 / 2 = 0.18 ≤ 0.5. -/
theorem abs_offV2Y_le (seed : String) (ch : ℝ) (h : 0 ≤ ch) :
    |jitterY seed ch| ≤ ch / 2 := by
  have := abs_jitterY_le seed ch h
  linarith

/-- A coordinate of the form `-total/2 + (idx + 0.5) * cell + off` with
`idx < k`, `k * cell = total` and `|off| ≤ cell/2` stays within the usable
band expanded by half a cell. -/
theorem grid_coord_bounds (total cell off : ℝ) (k idx : Nat) (hk : idx < k)
    (hcell : 0 < cell) (htot : (k : ℝ) * cell = total) (hoff : |off| ≤ cell / 2) :
    -total / 2 - cell / 2 ≤ -total / 2 + ((idx : ℝ) + 0.5) * cell + off ∧
    -total / 2 + ((idx : ℝ) + 0.5) * cell + off ≤ total / 2 + cell / 2 := by
  have hidx : (idx : ℝ) + 1 ≤ (k : ℝ) := by exact_mod_cast hk
  have hoff1 := abs_le.mp hoff
  have hmul : ((idx : ℝ) + 1) * cell ≤ (k : ℝ) * cell :=
    mul_le_mul_of_nonneg_right hidx hcell.le
  rw [htot] at hmul
  have h0 : 0 ≤ (idx : ℝ) * cell := mul_nonneg (Nat.cast_nonneg idx) hcell.le
  constructor
  · nlinarith [hoff1.1]
  · nlinarith [hoff1.2]

theorem coordX_bounds (n i : Nat) (vw vh : ℝ) (offX : ℝ) (hn : 0 < n) (hw : 0 < vw)
    (hh : 0 < vh) (hoffX : |offX| ≤ cellW n vw vh / 2) :
    -(usableW vw) / 2 - cellW n vw vh / 2 ≤
      -(usableW vw) / 2 + (((i % cols n vw vh : Nat) : ℝ) + 0.5) * cellW n vw vh + offX ∧
    -(usableW vw) / 2 + (((i % cols n vw vh : Nat) : ℝ) + 0.5) * cellW n vw vh + offX ≤
      usableW vw / 2 + cellW n vw vh / 2 := by
  have kpos := cols_pos n vw vh hn hw hh
  have hcw := cellW_pos n vw vh hn hw hh
  have hc : i % cols n vw vh < cols n vw vh := Nat.mod_lt i kpos
  exact grid_coord_bounds (usableW vw) (cellW n vw vh) offX (cols n vw vh)
    (i % cols n vw vh) hc hcw (cols_mul_cellW n vw vh hn hw hh) hoffX

theorem coordY_bounds (n i : Nat) (vw vh : ℝ) (offY : ℝ) (hn : 0 < n) (hw : 0 < vw)
    (hh : 0 < vh) (hi : i < n) (hoffY : |offY| ≤ cellH n vw vh / 2) :
    -(usableH vh) / 2 - cellH n vw vh / 2 ≤
      usableH vh / 2 - (((i / cols n vw vh : Nat) : ℝ) + 0.5) * cellH n vw vh + offY ∧
    usableH vh / 2 - (((i / cols n vw vh : Nat) : ℝ) + 0.5) * cellH n vw vh + offY ≤
      usableH vh / 2 + cellH n vw vh / 2 := by
  have kpos := cols_pos n vw vh hn hw hh
  have hch := cellH_pos n vw vh hn hw hh
  have hr : i / cols n vw vh < rows n vw vh :=
    (Nat.div_lt_iff_lt_mul kpos).mpr
      (lt_of_lt_of_le hi (le_rows_mul_cols n vw vh hn hw hh))
  have hneg : |(-offY)| ≤ cellH n vw vh / 2 := by rwa [abs_neg]
  have H := grid_coord_bounds (usableH vh) (cellH n vw vh) (-offY) (rows n vw vh)
    (i / cols n vw vh) hr hch (rows_mul_cellH n vw vh hn hw hh) hneg
  constructor
  · linarith [H.2]
  · linarith [H.1]

/-- C3: in both planar grid+jitter variants, every node lies within its
assigned grid cell expanded by at most half the cell width on x and half
the cell height on y — the id-seeded jitter, the wave offset and the
honeycomb/stagger offset sum to at most 0.48 of the cell width and 0.37 of
the cell height (first variant; 0.2 and 0.18 in the second) — and
consequently every x-coordinate lies within
`[-usableW/2 - cellW/2, usableW/2 + cellW/2]` and every y-coordinate
within the analogous band. -/
theorem planar_layout_bounds (datasets : List Dataset) (vw vh : ℝ) (i : Nat)
    (hne : datasets ≠ []) (hw : 0 < vw) (hh : 0 < vh) (hi : i < datasets.length) :
    (|(posAtV1 datasets vw vh i).1 - cellCenterX datasets.length vw vh i| ≤
        cellW datasets.length vw vh / 2 ∧
      |(posAtV1 datasets vw vh i).2 - cellCenterY datasets.length vw vh i| ≤
        cellH datasets.length vw vh / 2 ∧
      -(usableW vw) / 2 - cellW datasets.length vw vh / 2 ≤ (posAtV1 datasets vw vh i).1 ∧
      (posAtV1 datasets vw vh i).1 ≤ usableW vw / 2 + cellW datasets.length vw vh / 2 ∧
      -(usableH vh) / 2 - cellH datasets.length vw vh / 2 ≤ (posAtV1 datasets vw vh i).2 ∧
      (posAtV1 datasets vw vh i).2 ≤ usableH vh / 2 + cellH datasets.length vw vh / 2) ∧
    (|(posAtV2 datasets vw vh i).1 - cellCenterX datasets.length vw vh i| ≤
        cellW datasets.length vw vh / 2 ∧
      |(posAtV2 datasets vw vh i).2 - cellCenterY datasets.length vw vh i| ≤
        cellH datasets.length vw vh / 2 ∧
      -(usableW vw) / 2 - cellW datasets.length vw vh / 2 ≤ (posAtV2 datasets vw vh i).1 ∧
      (posAtV2 datasets vw vh i).1 ≤ usableW vw / 2 + cellW datasets.length vw vh / 2 ∧
      -(usableH vh) / 2 - cellH datasets.length vw vh / 2 ≤ (posAtV2 datasets vw vh i).2 ∧
      (posAtV2 datasets vw vh i).2 ≤ usableH vh / 2 + cellH datasets.length vw vh / 2) := by
  have hn : 0 < datasets.length := List.length_pos.mpr hne
  set n := datasets.length with hnn
  set seedv := seedFor (datasets.getD i defaultDataset) i with hseed
  set cw := cellW n vw vh with hcwd
  set ch := cellH n vw vh with hchd
  have hcw := (cellW_pos n vw vh hn hw hh).le
  have hch := (cellH_pos n vw vh hn hw hh).le
  set r := i / cols n vw vh with hrd
  set c := i % cols n vw vh with hcd
  set off1x := baseJitterX seedv cw + waveOffsetX r c cw + honeycombOffset r cw with ho1x
  set off1y := baseJitterY seedv ch + waveOffsetY r c ch with ho1y
  set off2x := jitterX seedv c cw with ho2x
  set off2y := jitterY seedv ch with ho2y
  have e1 := posAtV1_eq datasets vw vh i hne hi
  have e2 := posAtV2_eq datasets vw vh i hne hi
  have ex1 : (posAtV1 datasets vw vh i).1 =
      -(usableW vw) / 2 + ((c : ℝ) + 0.5) * cw + off1x := by
    rw [e1, ho1x]
    simp only [posV1, ← hnn, ← hseed, ← hcwd, ← hchd, ← hrd, ← hcd]
    try ring
  have ey1 : (posAtV1 datasets vw vh i).2 =
      usableH vh / 2 - ((r : ℝ) + 0.5) * ch + off1y := by
    rw [e1, ho1y]
    simp only [posV1, ← hnn, ← hseed, ← hcwd, ← hchd, ← hrd, ← hcd]
    try ring
  have ex2 : (posAtV2 datasets vw vh i).1 =
      -(usableW vw) / 2 + ((c : ℝ) + 0.5) * cw + off2x := by
    rw [e2, ho2x]
    simp only [posV2, ← hnn, ← hseed, ← hcwd, ← hchd, ← hrd, ← hcd]
    try ring
  have ey2 : (posAtV2 datasets vw vh i).2 =
      usableH vh / 2 - ((r : ℝ) + 0.5) * ch + off2y := by
    rw [e2, ho2y]
    simp only [posV2, ← hnn, ← hseed, ← hcwd, ← hchd, ← hrd, ← hcd]
    try ring
  have hb1x : |off1x| ≤ cw / 2 := abs_offV1X_le seedv r c cw hcw
  have hb1y : |off1y| ≤ ch / 2 := abs_offV1Y_le seedv r c ch hch
  have hb2x : |off2x| ≤ cw / 2 := abs_offV2X_le seedv c cw hcw
  have hb2y : |off2y| ≤ ch / 2 := abs_offV2Y_le seedv ch hch
  have bx1 := coordX_bounds n i vw vh off1x hn hw hh hb1x
  have by1 := coordY_bounds n i vw vh off1y hn hw hh hi hb1y
  have bx2 := coordX_bounds n i vw vh off2x hn hw hh hb2x
  have by2 := coordY_bounds n i vw vh off2y hn hw hh hi hb2y
  have ccx1 : (posAtV1 datasets vw vh i).1 - cellCenterX n vw vh i = off1x := by
    rw [ex1]
    unfold cellCenterX
    rw [← hcd, ← hcwd]
    ring
  have ccy1 : (posAtV1 datasets vw vh i).2 - cellCenterY n vw vh i = off1y := by
    rw [ey1]
    unfold cellCenterY
    rw [← hrd, ← hchd]
    ring
  have ccx2 : (posAtV2 datasets vw vh i).1 - cellCenterX n vw vh i = off2x := by
    rw [ex2]
    unfold cellCenterX
    rw [← hcd, ← hcwd]
    ring
  have ccy2 : (posAtV2 datasets vw vh i).2 - cellCenterY n vw vh i = off2y := by
    rw [ey2]
    unfold cellCenterY
    rw [← hrd, ← hchd]
    ring
  refine ⟨⟨?_, ?_, ?_, ?_, ?_, ?_⟩, ?_, ?_, ?_, ?_, ?_, ?_⟩
  · rw [ccx1]
    exact hb1x
  · rw [ccy1]
    exact hb1y
  · rw [ex1]
    exact bx1.1
  · rw [ex1]
    exact bx1.2
  · rw [ey1]
    exact by1.1
  · rw [ey1]
    exact by1.2
  · rw [ccx2]
    exact hb2x
  · rw [ccy2]
    exact hb2y
  · rw [ex2]
    exact bx2.1
  · rw [ex2]
    exact bx2.2
  · rw [ey2]
    exact by2.1
  · rw [ey2]
    exact by2.2

/-- Witness for C3: instantiation at a single dataset and viewport 72 × 86. -/
theorem planar_layout_bounds_witness :
    ([dsA] : List Dataset) ≠ [] ∧ (0 : ℝ) < 72 ∧ (0 : ℝ) < 86 ∧
      0 < ([dsA] : List Dataset).length ∧
      |(posAtV1 [dsA] 72 86 0).1 - cellCenterX ([dsA] : List Dataset).length 72 86 0| ≤
        cellW ([dsA] : List Dataset).length 72 86 / 2 :=
  ⟨by decide, by norm_num, by norm_num, by decide,
    ((planar_layout_bounds [dsA] 72 86 0 (by decide) (by norm_num) (by norm_num)
      (by decide)).1).1⟩

/-! ### C4: classifier priority order -/

/-- C4: for every description string the classifier returns one of
tabular/images/text/other, and the keyword groups decide in the fixed
source order — the tabular group first, then the image group, then the
text group, then the (separately checked) time-series group which also
maps to tabular, with audio or graph/network vocabulary and no match all
falling to other; in particular any description containing both `"csv"`
and `"image"` classifies as tabular. -/
theorem classifier_priority (content : String) :
    (determineDatasetType content = DType.tabular ∨
     determineDatasetType content = DType.images ∨
     determineDatasetType content = DType.text ∨
     determineDatasetType content = DType.other) ∧
    (hasAny (lowerChars content) tabularKws = true →
      determineDatasetType content = DType.tabular) ∧
    (hasAny (lowerChars content) tabularKws = false →
     hasAny (lowerChars content) imageKws = true →
      determineDatasetType content = DType.images) ∧
    (hasAny (lowerChars content) tabularKws = false →
     hasAny (lowerChars content) imageKws = false →
     hasAny (lowerChars content) textKws = true →
      determineDatasetType content = DType.text) ∧
    (hasAny (lowerChars content) tabularKws = false →
     hasAny (lowerChars content) imageKws = false →
     hasAny (lowerChars content) textKws = false →
     hasAny (lowerChars content) timeSeriesKws = true →
      determineDatasetType content = DType.tabular) ∧
    (hasAny (lowerChars content) tabularKws = false →
     hasAny (lowerChars content) imageKws = false →
     hasAny (lowerChars content) textKws = false →
     hasAny (lowerChars content) timeSeriesKws = false →
      determineDatasetType content = DType.other) ∧
    (includes (lowerChars content) "csv" = true →
     includes (lowerChars content) "image" = true →
      determineDatasetType content = DType.tabular) := by
  refine ⟨?_, ?_, ?_, ?_, ?_, ?_, ?_⟩
  · cases h : determineDatasetType content <;> simp [h]
  · intro h1
    simp [determineDatasetType, h1]
  · intro h1 h2
    simp [determineDatasetType, h1, h2]
  · intro h1 h2 h3
    simp [determineDatasetType, h1, h2, h3]
  · intro h1 h2 h3 h4
    simp [determineDatasetType, h1, h2, h3, h4]
  · intro h1 h2 h3 h4
    simp [determineDatasetType, h1, h2, h3, h4]
  · intro h1 _
    have ht : hasAny (lowerChars content) tabularKws = true := by
      simp [hasAny, tabularKws]
      exact Or.inl h1
    simp [determineDatasetType, ht]

/-- Witness for C4: a description containing both `"csv"` and `"image"`
classifies as tabular. -/
theorem classifier_priority_witness :
    includes (lowerChars csvImageContent) "csv" = true ∧
    includes (lowerChars csvImageContent) "image" = true ∧
    determineDatasetType csvImageContent = DType.tabular :=
  ⟨by decide, by decide,
    (classifier_priority csvImageContent).2.2.2.2.2.2 (by decide) (by decide)⟩

/-! ### C5: the empty dataset list -/

/-- C5 counterexample: invoked on the empty list, the layout does not
return an empty node array — `n = Math.max(0, 1)` forces one loop
iteration, which dereferences the missing `datasets[0]` and throws
(modelled as `none` rather than `some` of an empty array). -/
theorem empty_layout_returns_no_array :
    generateNodesScatter ([] : List Dataset) 72 86 = none := rfl

/-- C5 (amended): an empty dataset list produces an empty scene with no
node set and no crash, but through a call-site guard, not through the
layout — the Results page renders the empty-state placeholder and never
mounts ResultsMap when the list is empty, while the layout function
itself, called on the empty list, fails (both variants) instead of
returning an empty array. -/
theorem empty_list_renders_empty_scene (vw vh : ℝ) :
    resultsBody false none [] = ResultsView.empty ∧
    generateNodesScatter [] vw vh = none ∧
    generateNodesScatterV2 [] vw vh = none :=
  ⟨rfl, rfl, rfl⟩

/-! ### C6: GPU resource create/dispose parity -/

/-- C6: after mounting, one planet rebuild for a single search result and
teardown, the App component has created six geometries/materials (stars
geometry and material, planet geometry and material, glow geometry and
material) but disposed only two (stars geometry and material) — the
planet resources are removed from the scene yet never disposed, so the
create and dispose counts are not equal. -/
theorem create_dispose_counts_diverge :
    createCount (sessionTrace [1]) = 6 ∧ disposeCount (sessionTrace [1]) = 2 ∧
    createCount (sessionTrace [1]) ≠ disposeCount (sessionTrace [1]) :=
  ⟨rfl, rfl, by decide⟩

/-! ### C7: frame cancellation on teardown -/

/-- C7: the App component cleanup does cancel the pending frame request
before any disposal, and afterwards no frame remains pending; but the
landing-page variant never stores the id returned by
`requestAnimationFrame` and its cleanup contains no cancellation, so a
pending frame survives its teardown and the loop keeps running against
the disposed stars geometry and material. -/
theorem landing_teardown_never_cancels :
    cancelsBeforeAnyDispose appCleanup = true ∧
    framePendingAfter appCleanup true = false ∧
    cancelsBeforeAnyDispose landingCleanup = false ∧
    framePendingAfter landingCleanup true = true := by
  decide

/-! ### C8: click hit-testing -/

theorem hitLE_trans : ∀ a b c : RayHit, hitLE a b = true → hitLE b c = true →
    hitLE a c = true := by
  intro a b c hab hbc
  simp only [hitLE, decide_eq_true_eq] at *
  exact le_trans hab hbc

theorem hitLE_total : ∀ a b : RayHit, hitLE a b || hitLE b a := by
  intro a b
  simp only [hitLE, Bool.or_eq_true, decide_eq_true_eq]
  exact le_total a.dist b.dist

/-- C8: when the intersection list is empty, `handleClick` changes
nothing; when it is nonempty, the selected planet is an intersected one at
minimal camera-space distance along the ray, and the state becomes
`detail` with that planet selected. -/
theorem click_selects_nearest_or_is_silent (hits : List RayHit) (s : ClickState) :
    (hits = [] → handleClick hits s = s) ∧
    (hits ≠ [] → ∃ h, h ∈ hits ∧
      handleClick hits s = ⟨UIState.detail, some h.planet⟩ ∧
      ∀ h2 ∈ hits, h.dist ≤ h2.dist) := by
  constructor
  · intro he
    subst he
    simp [handleClick, intersectObjects]
  · intro hne
    have hperm : List.Perm (List.mergeSort hits hitLE) hits :=
      List.mergeSort_perm hits hitLE
    cases hms : intersectObjects hits with
    | nil =>
      exfalso
      apply hne
      rw [intersectObjects] at hms
      rw [hms] at hperm
      exact (List.Perm.nil_eq hperm).symm
    | cons h t =>
      have hms' : List.mergeSort hits hitLE = h :: t := hms
      refine ⟨h, ?_, ?_, ?_⟩
      · apply hperm.mem_iff.mp
        rw [hms']
        exact List.mem_cons_self h t
      · unfold handleClick
        rw [hms]
      · intro h2 hh2
        have hh2' : h2 ∈ h :: t := by
          rw [← hms']
          exact hperm.mem_iff.mpr hh2
        rcases List.mem_cons.mp hh2' with rfl | hh2t
        · exact le_refl _
        · have hp := List.sorted_mergeSort hitLE_trans hitLE_total hits
          rw [hms'] at hp
          have hd := (List.pairwise_cons.mp hp).1 h2 hh2t
          simpa [hitLE, decide_eq_true_eq] using hd

/-- Witness for C8: of two overlapping proxies at distances 5 and 2, the
click selects the nearer planet. -/
theorem click_selects_nearest_witness :
    ([hitFar, hitNear] : List RayHit) ≠ [] ∧
    ∃ h, h ∈ [hitFar, hitNear] ∧
      handleClick [hitFar, hitNear] ⟨UIState.results, none⟩ =
        ⟨UIState.detail, some h.planet⟩ ∧
      ∀ h2 ∈ [hitFar, hitNear], h.dist ≤ h2.dist :=
  ⟨by decide,
    (click_selects_nearest_or_is_silent [hitFar, hitNear]
      ⟨UIState.results, none⟩).2 (by decide)⟩

/-! ### C9: the UI state machine -/

/-- C9 counterexample: a search response arriving while the app shows the
detail view (possible because the Enter key handler of the search input
can start several fetches from landing, and a late response lands after
the user has clicked a planet) sets the UI state to results without
clearing `selectedPlanet`.  After the event trace response, click,
late response, the state is results with planet 0 still selected, so the
claimed if-and-only-if invariant between a non-null selection and the
detail state is false in a reachable state. -/
theorem late_response_breaks_selection_iff :
    (run [AppEvent.searchOk 2, AppEvent.clickHit 0, AppEvent.searchOk 2]).ui =
      UIState.results ∧
    (run [AppEvent.searchOk 2, AppEvent.clickHit 0, AppEvent.searchOk 2]).selected =
      some 0 ∧
    ¬((run [AppEvent.searchOk 2, AppEvent.clickHit 0,
          AppEvent.searchOk 2]).selected.isSome = true ↔
      (run [AppEvent.searchOk 2, AppEvent.clickHit 0, AppEvent.searchOk 2]).ui =
        UIState.detail) := by
  decide

theorem step_preserves_detail_selected (s : AppModel) (e : AppEvent)
    (h : s.ui = UIState.detail → s.selected.isSome = true) :
    (step s e).ui = UIState.detail → (step s e).selected.isSome = true := by
  cases e <;> simp only [step] <;> first
    | exact h
    | (split <;> simp_all)
    | simp_all

theorem run_detail_selected (evs : List AppEvent) :
    (run evs).ui = UIState.detail → (run evs).selected.isSome = true := by
  suffices H : ∀ s : AppModel, (s.ui = UIState.detail → s.selected.isSome = true) →
      ((evs.foldl step s).ui = UIState.detail →
        (evs.foldl step s).selected.isSome = true) by
    exact H initModel (by simp [initModel])
  induction evs with
  | nil => exact fun s h => h
  | cons e evs ih => exact fun s h => ih (step s e) (step_preserves_detail_selected s e h)

/-- C9 (amended): in every state reachable from the initial landing state
through search, select (click) and back events, the detail state implies a
selected planet (detail is never shown without a selection), and from any
reachable detail state the back-to-results event always yields the
results state with the selection cleared to none.  The converse direction
of the original claim is false: as the counterexample shows, a late
search response arriving in the detail state moves the UI to results
while `selectedPlanet` stays non-null. -/
theorem uiState_detail_has_selection (evs : List AppEvent) :
    ((run evs).ui = UIState.detail → (run evs).selected.isSome = true) ∧
    ((run evs).ui = UIState.detail →
      (step (run evs) AppEvent.backToResults).ui = UIState.results ∧
      (step (run evs) AppEvent.backToResults).selected = none) := by
  have hinv := run_detail_selected evs
  refine ⟨hinv, fun hd => ?_⟩
  have hsel : (run evs).selected.isSome = true := hinv hd
  simp [step, hd, hsel]

/-- Witness for C9 (amended): after a successful search and a click on
planet 0, the state is detail with a selection; the back event returns to
results with no selection. -/
theorem uiState_detail_has_selection_witness :
    (run [AppEvent.searchOk 2, AppEvent.clickHit 0]).ui = UIState.detail ∧
    ((step (run [AppEvent.searchOk 2, AppEvent.clickHit 0]) AppEvent.backToResults).ui =
        UIState.results ∧
      (step (run [AppEvent.searchOk 2, AppEvent.clickHit 0])
          AppEvent.backToResults).selected = none) :=
  ⟨by decide,
    (uiState_detail_has_selection [AppEvent.searchOk 2, AppEvent.clickHit 0]).2 (by decide)⟩

/-! ### C10: normalized relevance weights -/

theorem foldl_min_le_init (l : List Nat) (a : Nat) : l.foldl min a ≤ a := by
  induction l generalizing a with
  | nil => exact le_refl a
  | cons x xs ih => exact le_trans (ih (min a x)) (min_le_left a x)

theorem foldl_min_le_mem (l : List Nat) (a v : Nat) (hv : v ∈ l) : l.foldl min a ≤ v := by
  induction l generalizing a with
  | nil => cases hv
  | cons x xs ih =>
    rcases List.mem_cons.mp hv with rfl | hv2
    · exact le_trans (foldl_min_le_init xs (min a v)) (min_le_right a v)
    · exact ih (min a x) hv2

theorem le_foldl_max_init (l : List Nat) (a : Nat) : a ≤ l.foldl max a := by
  induction l generalizing a with
  | nil => exact le_refl a
  | cons x xs ih => exact le_trans (le_max_left a x) (ih (max a x))

theorem le_foldl_max_mem (l : List Nat) (a v : Nat) (hv : v ∈ l) : v ≤ l.foldl max a := by
  induction l generalizing a with
  | nil => cases hv
  | cons x xs ih =>
    rcases List.mem_cons.mp hv with rfl | hv2
    · exact le_trans (le_max_right a v) (le_foldl_max_init xs (max a v))
    · exact ih (max a x) hv2

theorem jsMin_le_of_mem (l : List Nat) (v : Nat) (hv : v ∈ l) : jsMin l ≤ v := by
  cases l with
  | nil => cases hv
  | cons x xs =>
    rcases List.mem_cons.mp hv with rfl | hv2
    · exact foldl_min_le_init xs v
    · exact foldl_min_le_mem xs x v hv2

theorem le_jsMax_of_mem (l : List Nat) (v : Nat) (hv : v ∈ l) : v ≤ jsMax l := by
  cases l with
  | nil => cases hv
  | cons x xs =>
    rcases List.mem_cons.mp hv with rfl | hv2
    · exact le_foldl_max_init xs v
    · exact le_foldl_max_mem xs x v hv2

theorem le_foldl_min (l : List Nat) (a k : Nat) (ha : k ≤ a) (hl : ∀ v ∈ l, k ≤ v) :
    k ≤ l.foldl min a := by
  induction l generalizing a with
  | nil => exact ha
  | cons x xs ih =>
    exact ih (min a x) (le_min ha (hl x (List.mem_cons_self x xs)))
      fun v hv => hl v (List.mem_cons_of_mem _ hv)

theorem le_jsMin (l : List Nat) (k : Nat) (hl : ∀ v ∈ l, k ≤ v) (hne : l ≠ []) :
    k ≤ jsMin l := by
  cases l with
  | nil => exact absurd rfl hne
  | cons x xs =>
    exact le_foldl_min xs x k (hl x (List.mem_cons_self x xs))
      fun v hv => hl v (List.mem_cons_of_mem _ hv)

/-- C10: for a nonempty dataset list every normalized relevance weight
`(num_files - min) / max(1, max - min)` lies in `[0, 1]` — the
`Math.max(1, ...)` guard keeps the divisor at least 1, so the division is
total — and when all datasets share the same `num_files` every weight is
exactly 0 rather than a division-by-zero artifact. -/
theorem weights_in_unit_interval (datasets : List Dataset) (hne : datasets ≠ []) :
    (∀ w ∈ weights datasets, 0 ≤ w ∧ w ≤ 1) ∧
    (∀ k : Nat, (∀ d ∈ datasets, d.num_files = k) →
      ∀ w ∈ weights datasets, w = 0) := by
  constructor
  · intro w hw
    unfold weights at hw
    simp only [List.mem_map] at hw
    obtain ⟨d, hd, rfl⟩ := hw
    have hdm : d.num_files ∈ datasets.map fun d => d.num_files :=
      List.mem_map_of_mem _ hd
    have hmin := jsMin_le_of_mem _ _ hdm
    have hmax := le_jsMax_of_mem _ _ hdm
    have hminq : (jsMin (datasets.map fun d => d.num_files) : ℚ) ≤ (d.num_files : ℚ) := by
      exact_mod_cast hmin
    have hmaxq : (d.num_files : ℚ) ≤ (jsMax (datasets.map fun d => d.num_files) : ℚ) := by
      exact_mod_cast hmax
    have hspan0 : (0 : ℚ) <
        max 1 ((jsMax (datasets.map fun d => d.num_files) : ℚ) -
          (jsMin (datasets.map fun d => d.num_files) : ℚ)) :=
      lt_of_lt_of_le one_pos (le_max_left _ _)
    constructor
    · exact div_nonneg (by linarith) hspan0.le
    · rw [div_le_one hspan0]
      have hmr := le_max_right (1 : ℚ)
        ((jsMax (datasets.map fun d => d.num_files) : ℚ) -
          (jsMin (datasets.map fun d => d.num_files) : ℚ))
      linarith
  · intro k hk w hw
    unfold weights at hw
    simp only [List.mem_map] at hw
    obtain ⟨d, hd, rfl⟩ := hw
    have hdk : d.num_files = k := hk d hd
    have hminv : jsMin (datasets.map fun d => d.num_files) = k := by
      apply le_antisymm
      · exact hdk ▸ jsMin_le_of_mem _ _ (List.mem_map_of_mem _ hd)
      · apply le_jsMin
        · intro v hv
          obtain ⟨d2, hd2, rfl⟩ := List.mem_map.mp hv
          rw [hk d2 hd2]
        · simpa using hne
    rw [hdk, hminv]
    simp

/-- Witness for C10: a two-element list with file counts 1 and 2. -/
theorem weights_in_unit_interval_witness :
    ([dsA, dsB] : List Dataset) ≠ [] ∧ ∀ w ∈ weights [dsA, dsB], 0 ≤ w ∧ w ≤ 1 :=
  ⟨by decide, (weights_in_unit_interval [dsA, dsB] (by decide)).1⟩

end Nexora
